import Mathlib

/-!
Shallow embedding of the complaint/transaction automation backend.

This file embeds the status-update, audit-logging, webhook and
notification logic of the ticket/transaction tracking backend
(ticketController.ts, transactionController.ts, transactionService.ts,
webhookController.ts, cronService.ts) and proves the specification
claims about it.

Modelling conventions:
* timestamps are abstract `Nat` clock values (hours); `CURRENT_TIMESTAMP`
  becomes an explicit `now : Nat` argument;
* the relational store is a `DB` record of lists of rows; SQL `UPDATE`
  is a `List.map` keyed on the row id, `INSERT` appends to the list;
* JavaScript string truthiness (`if (x)`) is `strPresent : Option String
  → Bool` (absent or empty string is falsy);
* notification sends (email / WhatsApp) are recorded as `Notification`
  values appended to the state, since the claims only count sends;
* the external status API and the HMAC-SHA256 primitive are external
  collaborators of the repository (axios / node crypto), so they enter
  as function arguments (`fetch`, `hmacHex`); all repository-side logic
  around them is embedded from the source.
-/

/-- JavaScript truthiness for an optional string field: `undefined`
and the empty string are falsy (`if (x)` in the controllers). -/
def strPresent : Option String → Bool
  | none => false
  | some s => !(s == "")

/-- JavaScript or-default (`x || defaultText`) on an optional string:
the default is used when the field is absent or the empty string. -/
def orDefault (o : Option String) (d : String) : String :=
  match o with
  | some s => if s == "" then d else s
  | none => d

/-- A transaction row (table `transactions`, see
`TransactionService.Transaction`).  `metadataPhone` is the
`metadata?.phone` field used by the notification senders. -/
structure Transaction where
  id : Nat
  transaction_id : String
  payer_email : String
  merchant_email : String
  amount : Int
  currency : String
  status : String
  payment_method : Option String
  gateway_response : Option String
  created_at : Nat
  updated_at : Nat
  completed_at : Option Nat
  metadataPhone : Option String
  deriving Repr, DecidableEq

/-- A ticket row (table `tickets`, see `models/Ticket.ts`). -/
structure Ticket where
  id : Nat
  ticket_number : String
  customer_email : String
  merchant_email : Option String
  subject : String
  description : Option String
  status : String
  priority : String
  transaction_id : Option String
  assigned_to : Option String
  tags : List String
  metadataPhone : Option String
  created_at : Nat
  updated_at : Nat
  resolved_at : Option Nat
  deriving Repr, DecidableEq

/-- An audit row (table `status_updates`).  `updated_by` is `none` when
the inserting query omits the column (the external-sync insert). -/
structure StatusUpdate where
  entity_type : String
  entity_id : Nat
  old_status : Option String
  new_status : String
  update_reason : String
  updated_by : Option String
  deriving Repr, DecidableEq

/-- A webhook log row (table `webhook_logs`). -/
structure WebhookLog where
  source : String
  event_type : String
  payload : String
  status : String
  processed_at : Option Nat
  error_message : Option String
  deriving Repr, DecidableEq

/-- One notification send attempt (emailService.sendEmail /
whatsappService.send*), recorded by recipient and message type. -/
inductive Notification where
  | email : String → String → Notification
  | whatsapp : String → String → Notification
  deriving Repr, DecidableEq

/-- The relational store. -/
structure DB where
  tickets : List Ticket
  transactions : List Transaction
  status_updates : List StatusUpdate
  webhook_logs : List WebhookLog
  notifications : List Notification
  deriving Repr, DecidableEq

def emptyDB : DB :=
  { tickets := [], transactions := [], status_updates := [],
    webhook_logs := [], notifications := [] }

/-- The terminal transaction statuses (success, failed, refunded,
cancelled), as enumerated by the SQL CASE test `$1 IN (...)` of both
status-update queries. -/
def isTerminalStatus (s : String) : Bool :=
  s == "success" || s == "failed" || s == "refunded" || s == "cancelled"

/-- Lookup `SELECT * FROM transactions WHERE transaction_id = $1 OR id = $1`. -/
def findTransaction (ts : List Transaction) (idStr : String) : Option Transaction :=
  ts.find? (fun t => t.transaction_id == idStr || toString t.id == idStr)

/-- Lookup `SELECT * FROM transactions WHERE transaction_id = $1` (service). -/
def findTransactionByTid (ts : List Transaction) (tid : String) : Option Transaction :=
  ts.find? (fun t => t.transaction_id == tid)

/-- Lookup `SELECT * FROM tickets WHERE id = $1` (route id parameter). -/
def findTicketById (ts : List Ticket) (idStr : String) : Option Ticket :=
  ts.find? (fun t => toString t.id == idStr)

/-- The response of the external status source
(`TransactionService.fetchTransactionStatus`); the `payer_email` /
`merchant_email` / `metadataPhone` fields model `metadata?.…`. -/
structure StatusResponse where
  transaction_id : String
  status : String
  amount : Int
  currency : String
  payment_method : String
  gateway_response : String
  payer_email : Option String
  merchant_email : Option String
  metadataPhone : Option String
  deriving Repr, DecidableEq

namespace TransactionService

/-- Fresh serial id for an inserted transaction row. -/
def nextTransactionId (ts : List Transaction) : Nat :=
  (ts.map (·.id)).foldl Nat.max 0 + 1

/-- SyncStatus, from `TransactionService.updateTransactionStatus`: fetch the
external status (the `resp?` argument is the fetch result, `none` on
fetch failure), then upsert / conditionally update the local row.
Returns the resulting row (or `none` on fetch failure) and the new
store state. -/
def updateTransactionStatus (tid : String) (resp? : Option StatusResponse)
    (db : DB) (now : Nat) : Option Transaction × DB :=
  match resp? with
  | none => (none, db)
  | some resp =>
    match findTransactionByTid db.transactions tid with
    | none =>
      let t : Transaction :=
        { id := nextTransactionId db.transactions,
          transaction_id := resp.transaction_id,
          payer_email := resp.payer_email.getD "unknown@example.com",
          merchant_email := resp.merchant_email.getD "merchant@example.com",
          amount := resp.amount,
          currency := resp.currency,
          status := resp.status,
          payment_method := some resp.payment_method,
          gateway_response := some resp.gateway_response,
          created_at := now,
          updated_at := now,
          completed_at := none,
          metadataPhone := resp.metadataPhone }
      (some t, { db with transactions := db.transactions ++ [t] })
    | some cur =>
      if cur.status != resp.status then
        let updated : Transaction :=
          { cur with
            status := resp.status,
            gateway_response := some resp.gateway_response,
            updated_at := now,
            completed_at :=
              if isTerminalStatus resp.status then some now else cur.completed_at }
        let txs := db.transactions.map
          (fun t => if t.transaction_id == tid then updated else t)
        let row : StatusUpdate :=
          { entity_type := "transaction", entity_id := cur.id,
            old_status := some cur.status, new_status := resp.status,
            update_reason := "External API update", updated_by := none }
        (some updated,
          { db with transactions := txs,
                    status_updates := db.status_updates ++ [row] })
      else
        (some cur, db)

/-- BatchSync, from `TransactionService.batchUpdateTransactions`: applies
`updateTransactionStatus` to each id in order; a `none` result (failed
fetch / caught error) is skipped; successful rows are collected in
order. -/
def batchUpdateTransactions (ids : List String)
    (fetch : String → Option StatusResponse) (db : DB) (now : Nat) :
    List Transaction × DB :=
  match ids with
  | [] => ([], db)
  | i :: rest =>
    let r := updateTransactionStatus i (fetch i) db now
    let rs := batchUpdateTransactions rest fetch r.2 now
    match r.1 with
    | some t => (t :: rs.1, rs.2)
    | none => rs

end TransactionService

/-- Transaction notification fan-out (shared shape of the private helpers
in TransactionController / WebhookController / CronService): email the
payer, and WhatsApp the `metadata?.phone` number when present. -/
def sendTransactionNotifications (t : Transaction) (db : DB) : DB :=
  let db1 := { db with notifications :=
    db.notifications ++ [Notification.email t.payer_email "transaction_status_update"] }
  if strPresent t.metadataPhone then
    { db1 with notifications :=
      db1.notifications ++ [Notification.whatsapp (t.metadataPhone.getD "") "transaction_update"] }
  else db1

namespace TransactionController

/-- Result of the manual status-update endpoint. -/
inductive ManualUpdateResult where
  | badRequest
  | notFound
  | ok : Transaction → ManualUpdateResult
  deriving Repr, DecidableEq

/-- The row `UPDATE transactions SET status = $1, updated_at =
CURRENT_TIMESTAMP, completed_at = CASE WHEN $1 IN (terminal) THEN
CURRENT_TIMESTAMP ELSE completed_at END`. -/
def applyManualStatus (s : String) (now : Nat) (t : Transaction) : Transaction :=
  { t with
    status := s,
    updated_at := now,
    completed_at := if isTerminalStatus s then some now else t.completed_at }

/-- ManualStatusUpdate, from `TransactionController.updateTransactionStatus`:
400 if no status supplied, 404 if the transaction is absent; otherwise
update the row, append an audit row and send payer notifications —
with no comparison of the new status against the current one. -/
def updateTransactionStatus (idStr : String) (status? : Option String)
    (reason : Option String) (updated_by : Option String)
    (db : DB) (now : Nat) : ManualUpdateResult × DB :=
  match status? with
  | none => (.badRequest, db)
  | some s =>
    if s == "" then (.badRequest, db)
    else
      match findTransaction db.transactions idStr with
      | none => (.notFound, db)
      | some cur =>
        let updated := applyManualStatus s now cur
        let txs := db.transactions.map
          (fun t => if t.id == cur.id then updated else t)
        let row : StatusUpdate :=
          { entity_type := "transaction", entity_id := cur.id,
            old_status := some cur.status, new_status := s,
            update_reason := orDefault reason "Manual status update",
            updated_by := some (orDefault updated_by "admin") }
        let db1 := { db with transactions := txs,
                             status_updates := db.status_updates ++ [row] }
        (.ok updated, sendTransactionNotifications updated db1)

end TransactionController

namespace TicketController

/-- The body of the ticket-creation endpoint
(`TicketCreationData` in models/Ticket.ts); `metadataPhone` is the
`metadata?.phone` field used by the WhatsApp tracking-link send. -/
structure TicketCreationData where
  customer_email : Option String := none
  merchant_email : Option String := none
  subject : Option String := none
  description : Option String := none
  priority : Option String := none
  transaction_id : Option String := none
  tags : Option (List String) := none
  metadataPhone : Option String := none
  deriving Repr, DecidableEq

/-- Result of the ticket-creation endpoint. -/
inductive CreateResult where
  | badRequest
  | ok : Ticket → CreateResult
  deriving Repr, DecidableEq

/-- Fresh serial id for an inserted ticket row. -/
def nextTicketId (ts : List Ticket) : Nat :=
  (ts.map (·.id)).foldl Nat.max 0 + 1

/-- JavaScript `x || null` on an optional string field: an absent or
empty value is stored as NULL. -/
def orNull (o : Option String) : Option String :=
  if strPresent o then o else none

/-- Ticket Create, from `TicketController.createTicket`: 400 when
`customer_email` or `subject` is falsy; otherwise insert the ticket
row (status defaults to `open`), insert the synthetic created
StatusUpdate row (old=null, new=open, reason Ticket created), send the
acknowledgment email and — when a phone number is present in the
metadata — the WhatsApp tracking link.  The ticket number produced by
the clock-and-random generator enters as the `ticketNumber`
argument. -/
def createTicket (d : TicketCreationData) (ticketNumber : String)
    (db : DB) (now : Nat) : CreateResult × DB :=
  if !(strPresent d.customer_email && strPresent d.subject) then (.badRequest, db)
  else
    let t : Ticket :=
      { id := nextTicketId db.tickets,
        ticket_number := ticketNumber,
        customer_email := d.customer_email.getD "",
        merchant_email := orNull d.merchant_email,
        subject := d.subject.getD "",
        description := orNull d.description,
        status := "open",
        priority := orDefault d.priority "medium",
        transaction_id := orNull d.transaction_id,
        assigned_to := none,
        tags := d.tags.getD [],
        metadataPhone := d.metadataPhone,
        created_at := now,
        updated_at := now,
        resolved_at := none }
    let row : StatusUpdate :=
      { entity_type := "ticket", entity_id := t.id,
        old_status := none, new_status := "open",
        update_reason := "Ticket created", updated_by := none }
    let db1 := { db with tickets := db.tickets ++ [t],
                         status_updates := db.status_updates ++ [row] }
    let db2 := { db1 with notifications :=
      db1.notifications ++ [Notification.email (d.customer_email.getD "") "acknowledgment"] }
    let db3 :=
      if strPresent d.metadataPhone then
        { db2 with notifications :=
          db2.notifications ++ [Notification.whatsapp (d.metadataPhone.getD "") "tracking_link"] }
      else db2
    (.ok t, db3)

/-- The body of the ticket-update endpoint
(`TicketUpdateData` in models/Ticket.ts); `assigned_to` distinguishes
"not supplied" from "supplied, possibly null" because the source tests
it with `!== undefined`; `metadata` replaces the whole metadata object
(of which only the `phone` field is observable here). -/
structure TicketUpdateData where
  status : Option String := none
  priority : Option String := none
  assigned_to : Option (Option String) := none
  tags : Option (List String) := none
  metadata : Option (Option String) := none
  resolution : Option String := none
  updated_by : Option String := none
  deriving Repr, DecidableEq

/-- Result of the ticket update / delete endpoints. -/
inductive TicketResult where
  | notFound
  | ok : Ticket → TicketResult
  deriving Repr, DecidableEq

/-- The dynamic `UPDATE tickets SET …` built by
`TicketController.updateTicket`: each truthy field is set, `updated_at`
is always refreshed, and `resolved_at` is set when the supplied status
is `resolved` and the prior status was not. -/
def applyTicketUpdate (u : TicketUpdateData) (cur : Ticket) (now : Nat) : Ticket :=
  { cur with
    status := orDefault u.status cur.status,
    priority := orDefault u.priority cur.priority,
    assigned_to := u.assigned_to.getD cur.assigned_to,
    tags := u.tags.getD cur.tags,
    metadataPhone := u.metadata.getD cur.metadataPhone,
    updated_at := now,
    resolved_at :=
      if u.status == some "resolved" && !(cur.status == "resolved") then some now
      else cur.resolved_at }

/-- Ticket status notification fan-out (`sendStatusNotifications`): closure email to the
customer when transitioning to `resolved` with a truthy resolution
text, and a WhatsApp status update when a phone number is known. -/
def sendStatusNotifications (t : Ticket) (newStatus : String)
    (resolution : Option String) (db : DB) : DB :=
  let db1 :=
    if newStatus == "resolved" && strPresent resolution then
      { db with notifications :=
        db.notifications ++ [Notification.email t.customer_email "closure"] }
    else db
  if strPresent t.metadataPhone then
    { db1 with notifications :=
      db1.notifications ++ [Notification.whatsapp (t.metadataPhone.getD "") "status_update"] }
  else db1

/-- Ticket Update, from `TicketController.updateTicket`: 404 if the ticket is absent;
otherwise apply the supplied fields, and — only when a truthy status
was supplied that differs from the current one — append an audit row
and send status notifications. -/
def updateTicket (idStr : String) (u : TicketUpdateData) (db : DB) (now : Nat) :
    TicketResult × DB :=
  match findTicketById db.tickets idStr with
  | none => (.notFound, db)
  | some cur =>
    let updated := applyTicketUpdate u cur now
    let tks := db.tickets.map (fun t => if t.id == cur.id then updated else t)
    let db1 := { db with tickets := tks }
    match u.status with
    | some s =>
      if s != "" && s != cur.status then
        let row : StatusUpdate :=
          { entity_type := "ticket", entity_id := cur.id,
            old_status := some cur.status, new_status := s,
            update_reason := orDefault u.resolution "Status updated",
            updated_by := some (orDefault u.updated_by "system") }
        let db2 := { db1 with status_updates := db1.status_updates ++ [row] }
        (.ok updated, sendStatusNotifications updated s u.resolution db2)
      else (.ok updated, db1)
    | none => (.ok updated, db1)

/-- Close, from `TicketController.deleteTicket`: runs `UPDATE tickets
SET status = closed, updated_at = CURRENT_TIMESTAMP WHERE id = $1`
(string literals unquoted here) — note that no `status_updates` insert
follows the update in the source. -/
def deleteTicket (idStr : String) (db : DB) (now : Nat) : TicketResult × DB :=
  match findTicketById db.tickets idStr with
  | none => (.notFound, db)
  | some cur =>
    let updated := { cur with status := "closed", updated_at := now }
    let tks := db.tickets.map (fun t => if t.id == cur.id then updated else t)
    (.ok updated, { db with tickets := tks })

end TicketController

namespace CronService

/-- Eligibility for the auto-close job: status is resolved and
`resolved_at` is older than `NOW()` minus a 24-hour interval (the
clock counts hours). -/
def autoCloseEligible (now : Nat) (t : Ticket) : Bool :=
  t.status == "resolved" &&
    (match t.resolved_at with
     | some r => r + 24 < now
     | none => false)

/-- The audit row inserted for each auto-closed ticket. -/
def autoCloseStatusRow (t : Ticket) : StatusUpdate :=
  { entity_type := "ticket", entity_id := t.id,
    old_status := some "resolved", new_status := "closed",
    update_reason := "Auto-closed after 24 hours", updated_by := some "system" }

/-- One loop iteration of the auto-close job: close the ticket and
insert its audit row. -/
def autoCloseOne (db : DB) (now : Nat) (t : Ticket) : DB :=
  let tks := db.tickets.map
    (fun x => if x.id == t.id then { x with status := "closed", updated_at := now } else x)
  { db with
    tickets := tks,
    status_updates := db.status_updates ++ [autoCloseStatusRow t] }

/-- The auto-close job, from `CronService.autoCloseResolvedTickets`: select the eligible
tickets, then close each and insert one audit row per ticket. -/
def autoCloseResolvedTickets (db : DB) (now : Nat) : DB :=
  (db.tickets.filter (autoCloseEligible now)).foldl
    (fun d t => autoCloseOne d now t) db

end CronService

namespace WebhookController

/-- The parsed body of the transaction webhook, together with its raw
serialization (the handler signs/verifies `JSON.stringify(req.body)`). -/
structure TxWebhookBody where
  raw : String
  transaction_id : Option String
  status : Option String
  deriving Repr, DecidableEq

/-- HTTP outcome of a webhook handler. -/
inductive WebhookResponse where
  | unauthorized
  | badRequest
  | ok
  | serverError
  deriving Repr, DecidableEq

/-- Webhook logging, from `WebhookController.logWebhook`: insert one `webhook_logs` row;
`processed_at` is set only when the status written is `processed`. -/
def logWebhook (source eventType payload status : String)
    (errorMessage : Option String) (db : DB) (now : Nat) : DB :=
  { db with webhook_logs := db.webhook_logs ++
    [{ source := source, event_type := eventType, payload := payload,
       status := status,
       processed_at := if status == "processed" then some now else none,
       error_message := errorMessage }] }

/-- The `crypto.timingSafeEqual` comparison of the two signature buffers: a length
mismatch throws (caught by `verifySignature`, which returns false); on
equal lengths it is plain byte equality. -/
def timingSafeEq (a b : String) : Bool :=
  if a.length == b.length then a == b else false

/-- Signature verification, from `WebhookController.verifySignature`, over an abstract HMAC-SHA256
hex primitive `hmacHex secret payload` (node `crypto` is an external
collaborator): compare the header value against
`sha256=<hmac>`; an absent header makes `Buffer.from` throw, which the
catch turns into `false`. -/
def verifySignature (payload : String) (signature : Option String)
    (secret : String) (hmacHex : String → String → String) : Bool :=
  match signature with
  | none => false
  | some s => timingSafeEq s ("sha256=" ++ hmacHex secret payload)

/-- The pending row inserted by every transaction-webhook call before
any validation. -/
def pendingLogRow (payload : String) : WebhookLog :=
  { source := "transaction", event_type := "status_update", payload := payload,
    status := "pending", processed_at := none, error_message := none }

/-- The second row inserted on the success path. -/
def processedLogRow (payload : String) (now : Nat) : WebhookLog :=
  { source := "transaction", event_type := "status_update", payload := payload,
    status := "processed", processed_at := some now, error_message := none }

/-- The second row inserted when SyncStatus returns no row. -/
def failedLogRow (payload : String) : WebhookLog :=
  { source := "transaction", event_type := "status_update", payload := payload,
    status := "failed", processed_at := none,
    error_message := some "Failed to update transaction" }

/-- The transaction webhook handler, from
`WebhookController.handleTransactionWebhook`: log a pending row,
verify the signature when a secret is configured (401 on mismatch),
validate `transaction_id` / `status` (400 when falsy), then delegate to
`TransactionService.updateTransactionStatus`; on a row being returned,
send notifications and log a processed row (200), otherwise log a
failed row (500). -/
def handleTransactionWebhook (secret : Option String)
    (hmacHex : String → String → String) (signature : Option String)
    (body : TxWebhookBody) (fetch : String → Option StatusResponse)
    (db : DB) (now : Nat) : WebhookResponse × DB :=
  let db0 := logWebhook "transaction" "status_update" body.raw "pending" none db now
  let sigOk :=
    match secret with
    | some sk => verifySignature body.raw signature sk hmacHex
    | none => true
  if !sigOk then (.unauthorized, db0)
  else if !(strPresent body.transaction_id && strPresent body.status) then
    (.badRequest, db0)
  else
    let tid := body.transaction_id.getD ""
    let r := TransactionService.updateTransactionStatus tid (fetch tid) db0 now
    match r.1 with
    | some t =>
      let db2 := sendTransactionNotifications t r.2
      (.ok, logWebhook "transaction" "status_update" body.raw "processed" none db2 now)
    | none =>
      (.serverError,
        logWebhook "transaction" "status_update" body.raw "failed"
          (some "Failed to update transaction") r.2 now)

end WebhookController

namespace TicketList

/-- The query-string filters accepted by `TicketController.getTickets`
(`TicketFilter` in models/Ticket.ts). -/
structure TicketFilter where
  status : Option String := none
  priority : Option String := none
  customer_email : Option String := none
  merchant_email : Option String := none
  assigned_to : Option String := none
  transaction_id : Option String := none
  date_from : Option String := none
  date_to : Option String := none
  search : Option String := none
  deriving Repr, DecidableEq

/-- One `if (filters.x) { whereConditions.push(…$paramIndex++…);
queryParams.push(…) }` step of the WHERE-clause builder: the
accumulator carries the pushed parameter values and the running
`paramIndex`; ILIKE filters push the value wrapped in `%`. -/
def stepFilter (acc : List String × Nat) (o : Option String) (wrapLike : Bool) :
    List String × Nat :=
  if strPresent o then
    (acc.1 ++ [if wrapLike then "%" ++ o.getD "" ++ "%" else o.getD ""], acc.2 + 1)
  else acc

/-- The simple one-parameter filters, in the order the source tests
them: status, priority, customer_email, merchant_email, assigned_to,
transaction_id, date_from, date_to (the Bool marks ILIKE wrapping). -/
def simpleFilters (f : TicketFilter) : List (Option String × Bool) :=
  [(f.status, false), (f.priority, false), (f.customer_email, true),
   (f.merchant_email, true), (f.assigned_to, true), (f.transaction_id, false),
   (f.date_from, false), (f.date_to, false)]

/-- The WHERE-clause build of `TicketController.getTickets`: after the
simple filters, a truthy search filter pushes three `%search%`
parameters while advancing `paramIndex` five times — three times by
the `$${paramIndex++}` placeholders of the OR-condition and then two
more by the explicit `paramIndex += 2`.  Returns the pushed filter
parameters and the final `paramIndex` value (which the source then
uses as the `LIMIT` placeholder, with `OFFSET` at the next index). -/
def buildTicketQueryParams (f : TicketFilter) : List String × Nat :=
  let acc := (simpleFilters f).foldl (fun a p => stepFilter a p.1 p.2) ([], 1)
  if strPresent f.search then
    let w := "%" ++ f.search.getD "" ++ "%"
    (acc.1 ++ [w, w, w], acc.2 + 3 + 2)
  else acc

/-- Number of parameters actually supplied to the tickets query: the
filter parameters plus `limit` and `offset`. -/
def suppliedParamCount (f : TicketFilter) : Nat :=
  (buildTicketQueryParams f).1.length + 2

/-- The placeholder index rendered for `LIMIT` (`$${paramIndex++}`). -/
def limitPlaceholder (f : TicketFilter) : Nat :=
  (buildTicketQueryParams f).2

/-- The placeholder index rendered for `OFFSET`. -/
def offsetPlaceholder (f : TicketFilter) : Nat :=
  (buildTicketQueryParams f).2 + 1

end TicketList

/-! ## Concrete sample data used by witnesses and counterexamples -/

/-- A terminal (`success`) transaction whose `completed_at` was set at
time 5. -/
def sampleTx : Transaction :=
  { id := 1, transaction_id := "TX1", payer_email := "payer@example.com",
    merchant_email := "merchant@example.com", amount := 100,
    currency := "USD", status := "success", payment_method := none,
    gateway_response := none, created_at := 1, updated_at := 2,
    completed_at := some 5, metadataPhone := none }

/-- A store holding only `sampleTx`. -/
def sampleDB : DB := { emptyDB with transactions := [sampleTx] }

/-- An external status response reporting the same `success` status as
`sampleTx` already has. -/
def sampleRespSame : StatusResponse :=
  { transaction_id := "TX1", status := "success", amount := 100,
    currency := "USD", payment_method := "credit_card",
    gateway_response := "gw", payer_email := some "payer@example.com",
    merchant_email := some "merchant@example.com", metadataPhone := none }

/-- A fetch oracle for the external status source: knows only `TX1`
and reports its stored status unchanged. -/
def sampleFetch : String → Option StatusResponse :=
  fun tid => if tid == "TX1" then some sampleRespSame else none

/-- A toy stand-in for the HMAC-SHA256 hex primitive (only its
input/output wiring matters to the handler logic). -/
def sampleHmac : String → String → String :=
  fun secret payload => secret ++ "/" ++ payload

/-- An open ticket. -/
def sampleTicket : Ticket :=
  { id := 1, ticket_number := "TK1", customer_email := "cust@example.com",
    merchant_email := none, subject := "Payment failed",
    description := none, status := "open", priority := "medium",
    transaction_id := none, assigned_to := none, tags := [],
    metadataPhone := none, created_at := 1, updated_at := 2,
    resolved_at := none }

/-- A store holding only `sampleTicket`. -/
def sampleTicketDB : DB := { emptyDB with tickets := [sampleTicket] }

/-- A transaction-webhook body with no `transaction_id` field. -/
def sampleBadBody : WebhookController.TxWebhookBody :=
  { raw := "rawbody", transaction_id := none, status := some "success" }

/-- A well-formed transaction-webhook body for `TX1`. -/
def sampleGoodBody : WebhookController.TxWebhookBody :=
  { raw := "rawbody", transaction_id := some "TX1", status := some "success" }

/-- A ticket List request carrying only the free-text search filter. -/
def sampleSearchFilter : TicketList.TicketFilter := { search := some "pay" }

/-- A valid ticket-creation body. -/
def sampleCreationData : TicketController.TicketCreationData :=
  { customer_email := some "cust@example.com", subject := some "Payment failed" }

/-! ## Helper lemmas -/

/-- Sending transaction notifications only appends to the notification
log. -/
theorem sendTransactionNotifications_parts (t : Transaction) (db : DB) :
    (sendTransactionNotifications t db).webhook_logs = db.webhook_logs ∧
    (sendTransactionNotifications t db).status_updates = db.status_updates ∧
    (sendTransactionNotifications t db).transactions = db.transactions ∧
    (sendTransactionNotifications t db).tickets = db.tickets := by
  unfold sendTransactionNotifications
  split <;> simp

/-- Sending ticket status notifications only appends to the
notification log. -/
theorem sendStatusNotifications_parts (t : Ticket) (ns : String)
    (r : Option String) (db : DB) :
    (TicketController.sendStatusNotifications t ns r db).status_updates = db.status_updates ∧
    (TicketController.sendStatusNotifications t ns r db).tickets = db.tickets ∧
    (TicketController.sendStatusNotifications t ns r db).transactions = db.transactions := by
  unfold TicketController.sendStatusNotifications
  split <;> split <;> simp

/-- SyncStatus never touches the webhook or notification logs. -/
theorem sync_preserves_logs (tid : String) (r : Option StatusResponse)
    (db : DB) (now : Nat) :
    (TransactionService.updateTransactionStatus tid r db now).2.webhook_logs = db.webhook_logs ∧
    (TransactionService.updateTransactionStatus tid r db now).2.notifications = db.notifications := by
  unfold TransactionService.updateTransactionStatus
  cases r with
  | none => exact ⟨rfl, rfl⟩
  | some resp =>
    cases h : findTransactionByTid db.transactions tid with
    | none => simp [h]
    | some cur => simp only [h]; split <;> simp

/-- SyncStatus on an existing row whose stored status equals the
fetched status returns the stored row and leaves the store untouched
(shared by the C3 and C6 theorems). -/
theorem sync_status_unchanged (tid : String) (resp : StatusResponse)
    (db : DB) (now : Nat) (cur : Transaction)
    (hfind : findTransactionByTid db.transactions tid = some cur)
    (hstat : resp.status = cur.status) :
    TransactionService.updateTransactionStatus tid (some resp) db now = (some cur, db) := by
  unfold TransactionService.updateTransactionStatus
  simp [hfind, hstat]

/-! ## Claim theorems -/

/-- C3: SyncStatus is idempotent when the external status is unchanged:
for a transaction with an existing local row, if the fetched external
status equals the stored status, SyncStatus returns the existing row
with every field (including `updated_at`) unchanged, appends no
StatusUpdate row and sends no notification (the store is returned
exactly as it was), so a second call under the same external state is
a no-op. -/
theorem c3_sync_idempotent_when_unchanged (tid : String) (resp : StatusResponse)
    (db : DB) (now : Nat) (cur : Transaction)
    (hfind : findTransactionByTid db.transactions tid = some cur)
    (hstat : resp.status = cur.status) :
    TransactionService.updateTransactionStatus tid (some resp) db now = (some cur, db) :=
  sync_status_unchanged tid resp db now cur hfind hstat

/-- Witness for C3 at a concrete store: syncing `TX1` when the
external source still reports `success` returns the stored row and the
untouched store. -/
theorem c3_sync_idempotent_when_unchanged_witness :
    TransactionService.updateTransactionStatus "TX1" (some sampleRespSame) sampleDB 9 =
      (some sampleTx, sampleDB) :=
  c3_sync_idempotent_when_unchanged "TX1" sampleRespSame sampleDB 9 sampleTx
    (by decide) (by decide)

/-- C9: `resolved_at` is set exactly once by ticket Update: it is set
(to the current clock) when the supplied status is `resolved` and the
prior status was not, and a second Update to `resolved` on an
already-resolved ticket leaves `resolved_at` unchanged. -/
theorem c9_resolved_at_set_once (idStr : String)
    (u : TicketController.TicketUpdateData) (db : DB) (now : Nat) (cur : Ticket)
    (hfind : findTicketById db.tickets idStr = some cur)
    (hs : u.status = some "resolved") :
    (TicketController.updateTicket idStr u db now).1 =
      TicketController.TicketResult.ok (TicketController.applyTicketUpdate u cur now) ∧
    (cur.status ≠ "resolved" →
      (TicketController.applyTicketUpdate u cur now).resolved_at = some now) ∧
    (cur.status = "resolved" →
      (TicketController.applyTicketUpdate u cur now).resolved_at = cur.resolved_at) := by
  refine ⟨?_, ?_, ?_⟩
  · unfold TicketController.updateTicket
    simp only [hfind, hs]
    split <;> rfl
  · intro hne
    simp [TicketController.applyTicketUpdate, hs, hne]
  · intro heq
    simp [TicketController.applyTicketUpdate, hs, heq]

/-- Witness for C9: updating the open `sampleTicket` to `resolved` at
time 8 stamps `resolved_at := 8`. -/
theorem c9_resolved_at_set_once_witness :
    (TicketController.updateTicket "1" { status := some "resolved" } sampleTicketDB 8).1 =
      TicketController.TicketResult.ok
        (TicketController.applyTicketUpdate { status := some "resolved" } sampleTicket 8) ∧
    (TicketController.applyTicketUpdate { status := some "resolved" } sampleTicket 8).resolved_at =
      some 8 :=
  have h := c9_resolved_at_set_once "1" { status := some "resolved" } sampleTicketDB 8
    sampleTicket (by decide) rfl
  ⟨h.1, h.2.1 (by decide)⟩

/-- C4: ticket Update on an existing ticket: when a (truthy) status is
supplied that differs from the current status, exactly one StatusUpdate
row with matching old/new status is appended and `updated_at` is
refreshed to the current clock; when the supplied status equals the
current one, no StatusUpdate row is appended. -/
theorem c4_ticket_update_audit (idStr s : String)
    (u : TicketController.TicketUpdateData) (db : DB) (now : Nat) (cur : Ticket)
    (hfind : findTicketById db.tickets idStr = some cur)
    (hs : u.status = some s) (hne : s ≠ "") :
    (TicketController.updateTicket idStr u db now).1 =
      TicketController.TicketResult.ok (TicketController.applyTicketUpdate u cur now) ∧
    (TicketController.applyTicketUpdate u cur now).updated_at = now ∧
    (s ≠ cur.status →
      (TicketController.updateTicket idStr u db now).2.status_updates =
        db.status_updates ++
          [{ entity_type := "ticket", entity_id := cur.id,
             old_status := some cur.status, new_status := s,
             update_reason := orDefault u.resolution "Status updated",
             updated_by := some (orDefault u.updated_by "system") }]) ∧
    (s = cur.status →
      (TicketController.updateTicket idStr u db now).2.status_updates =
        db.status_updates) := by
  refine ⟨?_, rfl, ?_, ?_⟩
  · unfold TicketController.updateTicket
    simp only [hfind, hs]
    split <;> rfl
  · intro hnec
    unfold TicketController.updateTicket
    simp only [hfind, hs]
    have hcond : (s != "" && s != cur.status) = true := by
      simp [bne_iff_ne, hne, hnec]
    rw [if_pos hcond]
    simp [(sendStatusNotifications_parts _ _ _ _).1]
  · intro heqc
    unfold TicketController.updateTicket
    simp only [hfind, hs]
    have hcond : (s != "" && s != cur.status) = false := by
      simp [bne_iff_ne, heqc]
    rw [if_neg (by simp [hcond])]

/-- Witness for C4: moving the open `sampleTicket` to `in_progress`
appends exactly the matching audit row, and re-supplying `open`
appends none. -/
theorem c4_ticket_update_audit_witness :
    (TicketController.updateTicket "1" { status := some "in_progress" } sampleTicketDB 8).2.status_updates =
      [{ entity_type := "ticket", entity_id := 1,
         old_status := some "open", new_status := "in_progress",
         update_reason := "Status updated", updated_by := some "system" }] ∧
    (TicketController.updateTicket "1" { status := some "open" } sampleTicketDB 8).2.status_updates = [] :=
  have h1 := c4_ticket_update_audit "1" "in_progress" { status := some "in_progress" }
    sampleTicketDB 8 sampleTicket (by decide) rfl (by decide)
  have h2 := c4_ticket_update_audit "1" "open" { status := some "open" }
    sampleTicketDB 8 sampleTicket (by decide) rfl (by decide)
  ⟨(h1.2.2.1 (by decide)).trans (by decide), (h2.2.2.2 rfl).trans rfl⟩

/-- C10: ManualStatusUpdate on an existing transaction with any
non-empty supplied status unconditionally appends one StatusUpdate
audit row and sends the payer notifications (email always, WhatsApp
when a phone number is present) — there is no comparison of the
supplied status against the current one, so this holds in particular
when they are equal, and each repeated call appends one more audit row
and notification. -/
theorem c10_manual_update_unconditional (idStr s : String)
    (reason ub : Option String) (db : DB) (now : Nat) (cur : Transaction)
    (hfind : findTransaction db.transactions idStr = some cur) (hs : s ≠ "") :
    (TransactionController.updateTransactionStatus idStr (some s) reason ub db now).2.status_updates =
      db.status_updates ++
        [{ entity_type := "transaction", entity_id := cur.id,
           old_status := some cur.status, new_status := s,
           update_reason := orDefault reason "Manual status update",
           updated_by := some (orDefault ub "admin") }] ∧
    (TransactionController.updateTransactionStatus idStr (some s) reason ub db now).2.notifications =
      db.notifications ++ [Notification.email cur.payer_email "transaction_status_update"] ++
        (if strPresent cur.metadataPhone then
          [Notification.whatsapp (cur.metadataPhone.getD "") "transaction_update"]
         else []) := by
  have hcond : (s == "") = false := by simp [hs]
  unfold TransactionController.updateTransactionStatus sendTransactionNotifications
    TransactionController.applyManualStatus
  rw [hfind]
  simp only [hcond, Bool.false_eq_true, if_false]
  by_cases hp : strPresent cur.metadataPhone <;> simp [hp]

/-- Witness for C10: re-submitting the status `success` that `sampleTx`
already has still appends an audit row and a payer email. -/
theorem c10_manual_update_unconditional_witness :
    (TransactionController.updateTransactionStatus "TX1" (some "success") none none sampleDB 9).2.status_updates =
      [{ entity_type := "transaction", entity_id := 1,
         old_status := some "success", new_status := "success",
         update_reason := "Manual status update", updated_by := some "admin" }] ∧
    (TransactionController.updateTransactionStatus "TX1" (some "success") none none sampleDB 9).2.notifications =
      [Notification.email "payer@example.com" "transaction_status_update"] :=
  have h := c10_manual_update_unconditional "TX1" "success" none none sampleDB 9 sampleTx
    (by decide) (by decide)
  ⟨h.1.trans (by decide), h.2.trans (by decide)⟩

/-- C1 counterexample: `completed_at` is not write-once.  The stored
`sampleTx` is already terminal (`success`, `completed_at = 5`); a later
manual update to the terminal status `refunded` at time 10 overwrites
`completed_at` with 10, because the SQL CASE re-stamps
`CURRENT_TIMESTAMP` on every terminal-status update. -/
theorem c1_counterexample :
    (TransactionController.updateTransactionStatus "TX1" (some "refunded") none none sampleDB 10).2.transactions.map
        Transaction.completed_at = [some 10] ∧
    sampleTx.completed_at = some 5 := by
  decide

/-- C1 amended: on every status update of an existing transaction
(manual, or external sync with a changed status), `completed_at` is
stamped with the current clock exactly when the new status is terminal
— so the first terminal update sets it, a later update to another
terminal status overwrites it, and non-terminal updates leave it
unchanged. -/
theorem c1_completed_at_stamped_per_terminal_update (idStr s : String)
    (reason ub : Option String) (db : DB) (now : Nat) (cur : Transaction)
    (hfind : findTransaction db.transactions idStr = some cur) (hs : s ≠ "") :
    (TransactionController.updateTransactionStatus idStr (some s) reason ub db now).1 =
      TransactionController.ManualUpdateResult.ok
        (TransactionController.applyManualStatus s now cur) ∧
    (TransactionController.applyManualStatus s now cur).completed_at =
      (if isTerminalStatus s then some now else cur.completed_at) ∧
    (∀ (resp : StatusResponse) (t : Transaction) (db' : DB),
      findTransactionByTid db.transactions idStr = some cur →
      resp.status ≠ cur.status →
      TransactionService.updateTransactionStatus idStr (some resp) db now = (some t, db') →
      t.completed_at =
        (if isTerminalStatus resp.status then some now else cur.completed_at)) := by
  refine ⟨?_, rfl, ?_⟩
  · have hcond : (s == "") = false := by simp [hs]
    unfold TransactionController.updateTransactionStatus
    dsimp only
    simp [hcond, hfind]
  · intro resp t db' hf hne heq
    have hb : (cur.status != resp.status) = true := by
      simp only [bne_iff_ne, ne_eq]
      exact fun h => hne h.symm
    unfold TransactionService.updateTransactionStatus at heq
    dsimp only at heq
    rw [hf] at heq
    dsimp only at heq
    rw [if_pos hb] at heq
    have ht := congrArg Prod.fst heq
    simp only [Option.some.injEq] at ht
    rw [← ht]

/-- Witness for C1 amended: the manual update of `sampleTx` to
`refunded` at time 10 stamps `completed_at := 10`. -/
theorem c1_completed_at_stamped_per_terminal_update_witness :
    (TransactionController.updateTransactionStatus "TX1" (some "refunded") none none sampleDB 10).1 =
      TransactionController.ManualUpdateResult.ok
        (TransactionController.applyManualStatus "refunded" 10 sampleTx) ∧
    (TransactionController.applyManualStatus "refunded" 10 sampleTx).completed_at = some 10 :=
  have h := c1_completed_at_stamped_per_terminal_update "TX1" "refunded" none none
    sampleDB 10 sampleTx (by decide) (by decide)
  ⟨h.1, h.2.1.trans (by decide)⟩

/-- Each auto-close loop iteration appends exactly one audit row, so
the fold over the selected tickets appends one row per ticket. -/
theorem autoClose_foldl_status_updates (now : Nat) :
    ∀ (l : List Ticket) (db : DB),
      ((l.foldl (fun d t => CronService.autoCloseOne d now t) db).status_updates =
        db.status_updates ++ l.map CronService.autoCloseStatusRow) := by
  intro l
  induction l with
  | nil => intro db; simp
  | cons x xs ih =>
    intro db
    rw [List.foldl_cons, ih]
    simp [CronService.autoCloseOne]

/-- C5 counterexample: Close (the delete endpoint) records nothing in
the audit log.  Closing the open `sampleTicket` flips its status to
`closed` but leaves `status_updates` empty. -/
theorem c5_counterexample :
    (TicketController.deleteTicket "1" sampleTicketDB 7).2.status_updates = [] ∧
    (TicketController.deleteTicket "1" sampleTicketDB 7).2.tickets.map Ticket.status =
      ["closed"] := by
  decide

/-- Sending transaction notifications preserves the audit log
(projection of `sendTransactionNotifications_parts` for simp). -/
theorem sendTxNotif_status_updates (t : Transaction) (db : DB) :
    (sendTransactionNotifications t db).status_updates = db.status_updates :=
  (sendTransactionNotifications_parts t db).2.1

/-- C5 amended: every observed status transition of a ticket or
transaction appends exactly one StatusUpdate row to the append-only
audit log — the synthetic created transition written by ticket Create
(old=null, new=open), a ticket Update whose truthy supplied status
differs from the current one, a transaction ManualStatusUpdate, a
SyncStatus whose fetched status differs from the stored one, and the
resolved-to-closed transition of the auto-close job — with the single
exception of the transition to closed performed by Close(id) on an
existing ticket, which appends no StatusUpdate row: Close only sets
`status := closed` and refreshes `updated_at`, leaving that transition
unrecorded in the audit log. -/
theorem c5_audit_row_per_transition_except_close :
    (∀ (d : TicketController.TicketCreationData) (tn : String) (db : DB) (now : Nat),
      strPresent d.customer_email = true → strPresent d.subject = true →
      (TicketController.createTicket d tn db now).2.status_updates =
        db.status_updates ++
          [{ entity_type := "ticket",
             entity_id := TicketController.nextTicketId db.tickets,
             old_status := none, new_status := "open",
             update_reason := "Ticket created", updated_by := none }]) ∧
    (∀ (idStr s : String) (u : TicketController.TicketUpdateData) (db : DB)
        (now : Nat) (cur : Ticket),
      findTicketById db.tickets idStr = some cur → u.status = some s →
      s ≠ "" → s ≠ cur.status →
      (TicketController.updateTicket idStr u db now).2.status_updates =
        db.status_updates ++
          [{ entity_type := "ticket", entity_id := cur.id,
             old_status := some cur.status, new_status := s,
             update_reason := orDefault u.resolution "Status updated",
             updated_by := some (orDefault u.updated_by "system") }]) ∧
    (∀ (idStr s : String) (reason ub : Option String) (db : DB) (now : Nat)
        (cur : Transaction),
      findTransaction db.transactions idStr = some cur → s ≠ "" →
      (TransactionController.updateTransactionStatus idStr (some s) reason ub db now).2.status_updates =
        db.status_updates ++
          [{ entity_type := "transaction", entity_id := cur.id,
             old_status := some cur.status, new_status := s,
             update_reason := orDefault reason "Manual status update",
             updated_by := some (orDefault ub "admin") }]) ∧
    (∀ (tid : String) (resp : StatusResponse) (db : DB) (now : Nat)
        (cur : Transaction),
      findTransactionByTid db.transactions tid = some cur →
      resp.status ≠ cur.status →
      (TransactionService.updateTransactionStatus tid (some resp) db now).2.status_updates =
        db.status_updates ++
          [{ entity_type := "transaction", entity_id := cur.id,
             old_status := some cur.status, new_status := resp.status,
             update_reason := "External API update", updated_by := none }]) ∧
    (∀ (db : DB) (now : Nat),
      (CronService.autoCloseResolvedTickets db now).status_updates =
        db.status_updates ++
          (db.tickets.filter (CronService.autoCloseEligible now)).map
            CronService.autoCloseStatusRow) ∧
    (∀ (idStr : String) (db : DB) (now : Nat) (cur : Ticket),
      findTicketById db.tickets idStr = some cur →
      (TicketController.deleteTicket idStr db now).1 =
        TicketController.TicketResult.ok { cur with status := "closed", updated_at := now } ∧
      (TicketController.deleteTicket idStr db now).2.status_updates = db.status_updates) := by
  refine ⟨?_, ?_, ?_, ?_, ?_, ?_⟩
  · intro d tn db now h1 h2
    unfold TicketController.createTicket
    rw [if_neg (by simp [h1, h2])]
    dsimp only
    split <;> rfl
  · intro idStr s u db now cur hfind hs hne hnec
    unfold TicketController.updateTicket
    simp only [hfind, hs]
    have hcond : (s != "" && s != cur.status) = true := by
      simp [bne_iff_ne, hne, hnec]
    rw [if_pos hcond]
    simp [(sendStatusNotifications_parts _ _ _ _).1]
  · intro idStr s reason ub db now cur hfind hs
    have hcond : (s == "") = false := by simp [hs]
    unfold TransactionController.updateTransactionStatus
    dsimp only
    simp only [hcond, Bool.false_eq_true, if_false, hfind]
    simp [sendTxNotif_status_updates]
  · intro tid resp db now cur hfind hne
    have hb : (cur.status != resp.status) = true := by
      simp only [bne_iff_ne, ne_eq]
      exact fun h => hne h.symm
    unfold TransactionService.updateTransactionStatus
    dsimp only
    rw [hfind]
    dsimp only
    rw [if_pos hb]
  · intro db now
    exact autoClose_foldl_status_updates now _ db
  · intro idStr db now cur hfind
    unfold TicketController.deleteTicket
    rw [hfind]
    exact ⟨rfl, rfl⟩

/-- Witness for C5 amended: creating a ticket from a valid body writes
exactly the synthetic created audit row, while closing the open
`sampleTicket` at time 7 leaves the audit log untouched. -/
theorem c5_audit_row_per_transition_except_close_witness :
    (TicketController.createTicket sampleCreationData "TK5" emptyDB 4).2.status_updates =
      [{ entity_type := "ticket", entity_id := 1,
         old_status := none, new_status := "open",
         update_reason := "Ticket created", updated_by := none }] ∧
    (TicketController.deleteTicket "1" sampleTicketDB 7).1 =
      TicketController.TicketResult.ok { sampleTicket with status := "closed", updated_at := 7 } ∧
    (TicketController.deleteTicket "1" sampleTicketDB 7).2.status_updates =
      sampleTicketDB.status_updates :=
  have h := c5_audit_row_per_transition_except_close
  have hc := h.1 sampleCreationData "TK5" emptyDB 4 (by decide) (by decide)
  have hd := h.2.2.2.2.2 "1" sampleTicketDB 7 sampleTicket (by decide)
  ⟨hc.trans (by decide), hd.1, hd.2⟩

/-- C6 counterexample: the list returned by BatchSync is not "exactly
the transactions that were actually updated": syncing `TX1` whose
external status equals its stored status returns the row in the result
list while the store (hence the row) is completely unchanged. -/
theorem c6_counterexample :
    (TransactionService.batchUpdateTransactions ["TX1"] sampleFetch sampleDB 9).1 =
      [sampleTx] ∧
    (TransactionService.batchUpdateTransactions ["TX1"] sampleFetch sampleDB 9).2 =
      sampleDB := by
  decide

/-- C6 amended: BatchSync applies SyncStatus to each id independently:
an id whose external fetch fails is skipped entirely — the remaining
ids are still processed against the same store and the failed id
contributes nothing to the result — and an id whose fetch succeeds
with an unchanged status contributes its (unmodified) stored row, so
the result is the list of rows SyncStatus returned, not only the rows
actually updated. -/
theorem c6_batch_sync_skips_failures (fetch : String → Option StatusResponse)
    (now : Nat) :
    (∀ (pre post : List String) (i : String) (db : DB), fetch i = none →
      TransactionService.batchUpdateTransactions (pre ++ i :: post) fetch db now =
        TransactionService.batchUpdateTransactions (pre ++ post) fetch db now) ∧
    (∀ (tid : String) (cur : Transaction) (resp : StatusResponse) (db : DB),
      findTransactionByTid db.transactions tid = some cur →
      fetch tid = some resp → resp.status = cur.status →
      TransactionService.batchUpdateTransactions [tid] fetch db now = ([cur], db)) := by
  constructor
  · intro pre
    induction pre with
    | nil =>
      intro post i db h
      simp only [List.nil_append]
      conv_lhs => rw [TransactionService.batchUpdateTransactions]
      rw [h]
      rfl
    | cons x xs ih =>
      intro post i db h
      simp only [List.cons_append]
      conv_lhs => rw [TransactionService.batchUpdateTransactions]
      conv_rhs => rw [TransactionService.batchUpdateTransactions]
      rw [ih post i _ h]
  · intro tid cur resp db hfind hfetch hstat
    conv_lhs => rw [TransactionService.batchUpdateTransactions]
    rw [hfetch, sync_status_unchanged tid resp db now cur hfind hstat]
    rfl

/-- Witness for C6 amended: a failing id `BAD` at the head of the batch
is skipped without aborting, and the unchanged `TX1` still appears in
the result while the store stays identical. -/
theorem c6_batch_sync_skips_failures_witness :
    TransactionService.batchUpdateTransactions ["BAD", "TX1"] sampleFetch sampleDB 9 =
      TransactionService.batchUpdateTransactions ["TX1"] sampleFetch sampleDB 9 ∧
    TransactionService.batchUpdateTransactions ["TX1"] sampleFetch sampleDB 9 =
      ([sampleTx], sampleDB) :=
  have h := c6_batch_sync_skips_failures sampleFetch 9
  ⟨h.1 [] ["TX1"] "BAD" sampleDB (by decide),
   h.2 "TX1" sampleTx sampleRespSame sampleDB (by decide) (by decide) (by decide)⟩

/-- Each simple-filter step keeps `paramIndex` one ahead of the number
of parameters pushed so far. -/
theorem stepFilter_inv (acc : List String × Nat) (o : Option String) (w : Bool)
    (h : acc.2 = acc.1.length + 1) :
    (TicketList.stepFilter acc o w).2 = (TicketList.stepFilter acc o w).1.length + 1 := by
  unfold TicketList.stepFilter
  split <;> simp [h]

/-- The invariant holds across the whole fold over the simple filters. -/
theorem foldl_stepFilter_inv :
    ∀ (l : List (Option String × Bool)) (acc : List String × Nat),
      acc.2 = acc.1.length + 1 →
      ((l.foldl (fun a p => TicketList.stepFilter a p.1 p.2) acc).2 =
        (l.foldl (fun a p => TicketList.stepFilter a p.1 p.2) acc).1.length + 1) := by
  intro l
  induction l with
  | nil => intro acc h; simpa using h
  | cons x xs ih =>
    intro acc h
    rw [List.foldl_cons]
    exact ih _ (stepFilter_inv acc x.1 x.2 h)

/-- C8 (code bug): a ticket List request with a truthy free-text
search filter builds a query whose `OFFSET` placeholder index exceeds
the number of supplied parameters by two (the search branch advances
`paramIndex` five times while pushing only three parameters), so the
parameterized query is ill-formed — the store rejects it and the
endpoint returns 500 instead of the claimed result page. -/
theorem c8_search_placeholder_overshoot (f : TicketList.TicketFilter)
    (h : strPresent f.search = true) :
    TicketList.offsetPlaceholder f = TicketList.suppliedParamCount f + 2 ∧
    TicketList.suppliedParamCount f < TicketList.offsetPlaceholder f := by
  have hinv := foldl_stepFilter_inv (TicketList.simpleFilters f) ([], 1) (by simp)
  unfold TicketList.offsetPlaceholder TicketList.suppliedParamCount
    TicketList.buildTicketQueryParams
  rw [if_pos h]
  simp only [List.length_append, List.length_cons, List.length_nil]
  omega

/-- Witness for C8 at the failing input `search=pay` and no other
filters: the query renders `LIMIT $6 OFFSET $7` while supplying only
five parameters. -/
theorem c8_search_placeholder_overshoot_witness :
    (TicketList.offsetPlaceholder sampleSearchFilter =
       TicketList.suppliedParamCount sampleSearchFilter + 2 ∧
     TicketList.suppliedParamCount sampleSearchFilter <
       TicketList.offsetPlaceholder sampleSearchFilter) ∧
    TicketList.limitPlaceholder sampleSearchFilter = 6 ∧
    TicketList.offsetPlaceholder sampleSearchFilter = 7 ∧
    TicketList.suppliedParamCount sampleSearchFilter = 5 :=
  ⟨c8_search_placeholder_overshoot sampleSearchFilter (by decide),
   by decide, by decide, by decide⟩

/-- Projection form of `sendTransactionNotifications_parts` for simp. -/
theorem sendTxNotif_webhook_logs (t : Transaction) (db : DB) :
    (sendTransactionNotifications t db).webhook_logs = db.webhook_logs :=
  (sendTransactionNotifications_parts t db).1

/-- Projection form of `sync_preserves_logs` for simp. -/
theorem sync_webhook_logs (tid : String) (r : Option StatusResponse)
    (db : DB) (now : Nat) :
    (TransactionService.updateTransactionStatus tid r db now).2.webhook_logs =
      db.webhook_logs :=
  (sync_preserves_logs tid r db now).1

/-- The constant-time signature comparison agrees with plain string
equality: a length mismatch throws (yielding false) and equal lengths
compare bytewise. -/
theorem timingSafeEq_eq (a b : String) :
    WebhookController.timingSafeEq a b = (a == b) := by
  unfold WebhookController.timingSafeEq
  by_cases h : a = b
  · subst h; simp
  · have hb : (a == b) = false := beq_eq_false_iff_ne.mpr h
    rw [hb]
    split <;> rfl

/-- C2 counterexample: a transaction-webhook call (no secret
configured) whose body lacks `transaction_id` is rejected with 400 and
leaves exactly one webhook log row — still in status `pending`: the
row is never reclassified to processed/failed, contradicting the
claimed pending → processed/failed lifecycle. -/
theorem c2_counterexample :
    (WebhookController.handleTransactionWebhook none sampleHmac none sampleBadBody
        sampleFetch emptyDB 3).1 = WebhookController.WebhookResponse.badRequest ∧
    (WebhookController.handleTransactionWebhook none sampleHmac none sampleBadBody
        sampleFetch emptyDB 3).2.webhook_logs.map WebhookLog.status = ["pending"] := by
  decide

/-- C2 amended: every transaction-webhook call first inserts a new
WebhookLog row with status `pending`; on the success path an
additional `processed` row is inserted and on a SyncStatus failure an
additional `failed` row is inserted, while signature- and
validation-rejection paths insert no second row — the pending row
itself is never reclassified in any path. -/
theorem c2_pending_row_then_outcome_row (secret : Option String)
    (hm : String → String → String) (sig : Option String)
    (body : WebhookController.TxWebhookBody)
    (fetch : String → Option StatusResponse) (db : DB) (now : Nat) :
    ((WebhookController.handleTransactionWebhook secret hm sig body fetch db now).1 =
        WebhookController.WebhookResponse.unauthorized ∨
     (WebhookController.handleTransactionWebhook secret hm sig body fetch db now).1 =
        WebhookController.WebhookResponse.badRequest →
      (WebhookController.handleTransactionWebhook secret hm sig body fetch db now).2.webhook_logs =
        db.webhook_logs ++ [WebhookController.pendingLogRow body.raw]) ∧
    ((WebhookController.handleTransactionWebhook secret hm sig body fetch db now).1 =
        WebhookController.WebhookResponse.ok →
      (WebhookController.handleTransactionWebhook secret hm sig body fetch db now).2.webhook_logs =
        db.webhook_logs ++ [WebhookController.pendingLogRow body.raw,
                            WebhookController.processedLogRow body.raw now]) ∧
    ((WebhookController.handleTransactionWebhook secret hm sig body fetch db now).1 =
        WebhookController.WebhookResponse.serverError →
      (WebhookController.handleTransactionWebhook secret hm sig body fetch db now).2.webhook_logs =
        db.webhook_logs ++ [WebhookController.pendingLogRow body.raw,
                            WebhookController.failedLogRow body.raw]) := by
  unfold WebhookController.handleTransactionWebhook
  dsimp only
  split
  · exact ⟨fun _ => rfl, by simp, by simp⟩
  · split
    · exact ⟨fun _ => rfl, by simp, by simp⟩
    · split
      · refine ⟨by simp, fun _ => ?_, by simp⟩
        simp [WebhookController.logWebhook, WebhookController.pendingLogRow,
              WebhookController.processedLogRow, sendTxNotif_webhook_logs,
              sync_webhook_logs]
      · refine ⟨by simp, by simp, fun _ => ?_⟩
        simp [WebhookController.logWebhook, WebhookController.pendingLogRow,
              WebhookController.failedLogRow, sync_webhook_logs]

/-- Witness for C2 amended: a valid webhook for `TX1` (no secret) ends
with the pending row followed by a processed row. -/
theorem c2_pending_row_then_outcome_row_witness :
    (WebhookController.handleTransactionWebhook none sampleHmac none sampleGoodBody
        sampleFetch sampleDB 9).2.webhook_logs =
      sampleDB.webhook_logs ++ [WebhookController.pendingLogRow "rawbody",
                                WebhookController.processedLogRow "rawbody" 9] :=
  (c2_pending_row_then_outcome_row none sampleHmac none sampleGoodBody
    sampleFetch sampleDB 9).2.1 (by decide)

/-- C7: when a shared secret is configured, the transaction webhook is
gated by the signature header: a request whose header equals
`sha256=<hmac of the raw body under the secret>` is processed exactly
as an accepted request (identically to a call with no secret
configured, which can never answer 401), and every request whose
header differs from that value is rejected with 401 with the
transactions, audit rows and notifications all untouched. -/
theorem c7_signature_gate (hm : String → String → String) (sk sig : String)
    (body : WebhookController.TxWebhookBody)
    (fetch : String → Option StatusResponse) (db : DB) (now : Nat) :
    (sig = "sha256=" ++ hm sk body.raw →
      WebhookController.handleTransactionWebhook (some sk) hm (some sig) body fetch db now =
        WebhookController.handleTransactionWebhook none hm (some sig) body fetch db now) ∧
    (WebhookController.handleTransactionWebhook none hm (some sig) body fetch db now).1 ≠
      WebhookController.WebhookResponse.unauthorized ∧
    (sig ≠ "sha256=" ++ hm sk body.raw →
      (WebhookController.handleTransactionWebhook (some sk) hm (some sig) body fetch db now).1 =
        WebhookController.WebhookResponse.unauthorized ∧
      (WebhookController.handleTransactionWebhook (some sk) hm (some sig) body fetch db now).2.transactions =
        db.transactions ∧
      (WebhookController.handleTransactionWebhook (some sk) hm (some sig) body fetch db now).2.status_updates =
        db.status_updates ∧
      (WebhookController.handleTransactionWebhook (some sk) hm (some sig) body fetch db now).2.notifications =
        db.notifications) := by
  have hv : WebhookController.verifySignature body.raw (some sig) sk hm =
      (sig == "sha256=" ++ hm sk body.raw) := by
    unfold WebhookController.verifySignature
    exact timingSafeEq_eq sig ("sha256=" ++ hm sk body.raw)
  refine ⟨?_, ?_, ?_⟩
  · intro hgood
    have hb : (sig == "sha256=" ++ hm sk body.raw) = true := beq_iff_eq.mpr hgood
    unfold WebhookController.handleTransactionWebhook
    dsimp only
    rw [hv, hb]
  · unfold WebhookController.handleTransactionWebhook
    dsimp only
    split
    · simp_all
    · split
      · simp
      · split <;> simp
  · intro hbad
    have hb : (sig == "sha256=" ++ hm sk body.raw) = false := beq_eq_false_iff_ne.mpr hbad
    unfold WebhookController.handleTransactionWebhook
    dsimp only
    rw [hv, hb]
    exact ⟨rfl, rfl, rfl, rfl⟩

/-- Witness for C7: with secret `s`, the correctly signed request is
handled like an unsecured one, and a one-byte-different signature is
rejected with 401. -/
theorem c7_signature_gate_witness :
    WebhookController.handleTransactionWebhook (some "s") sampleHmac
        (some "sha256=s/rawbody") sampleGoodBody sampleFetch sampleDB 9 =
      WebhookController.handleTransactionWebhook none sampleHmac
        (some "sha256=s/rawbody") sampleGoodBody sampleFetch sampleDB 9 ∧
    (WebhookController.handleTransactionWebhook (some "s") sampleHmac
        (some "sha256=s/rawbodX") sampleGoodBody sampleFetch sampleDB 9).1 =
      WebhookController.WebhookResponse.unauthorized :=
  ⟨(c7_signature_gate sampleHmac "s" "sha256=s/rawbody" sampleGoodBody
      sampleFetch sampleDB 9).1 (by decide),
   ((c7_signature_gate sampleHmac "s" "sha256=s/rawbodX" sampleGoodBody
      sampleFetch sampleDB 9).2.2 (by decide)).1⟩
